import Mathlib

/-!
Shallow embedding of the client-side authentication layer of the errandmate
repository: the token-based `AuthClient` class of `src/lib/auth/authClient.ts`
(the second, token-based version of the file, the one the specification and
the claims cite by line number) together with the `useAuth` hook of
`src/hooks/useAuth.ts`.

Modelling conventions:
* The mutable fields of the `AuthClient` instance, the browser world it acts
  on (localStorage slot `auth_token`, the visible URL's query parameters,
  `window.location.href`, the interval-timer table) and the log of
  navigations it performs are gathered into one record `ClientState`; every
  method becomes a state-passing function on it.
* The outcome of a `fetch` call is an explicit input `FetchResult`: either a
  reply with an HTTP status and a parsed JSON body, or a network error.  A
  body that fails to parse as JSON raises inside the same `try` block as a
  network error and is absorbed by the same `catch`, so it is covered by
  `FetchResult.netError`.
* A `try` block that can raise is translated as an `Except`-valued function
  (`checkAuthenticationTry`, `logoutTry`); the enclosing method consumes it
  with an explicit match that mirrors the `catch`/`finally` clauses.
* `typeof window !== 'undefined'` guards become tests of `hasWindow`;
  `localStorage.getItem/setItem/removeItem('auth_token')` act on
  `storedToken`; `window.history.replaceState` acts on `urlParams`.
* A browser navigation (`window.location.href = ...`) is recorded by
  appending a `PageRef` to `navigations`; the login-page URL that the code
  builds by string concatenation and `encodeURIComponent` is abstracted as
  `PageRef.loginPage callbackUrl` since no claim inspects the URL text.
* `setInterval` draws a fresh timer id from `nextTimerId` and adds it to the
  browser's table `timers`; `clearInterval id` removes it.  The real-time
  firing schedule is not modelled; the interval callback body is translated
  separately as `periodicTick`.
* JavaScript truthiness of the optional strings and booleans in play is
  explicit: `x || d` on an optional string is `jsOr` (the empty string is
  falsy), `if (token)` fails on the empty string, and an optional boolean is
  truthy exactly when it is `some true`.
-/

/-- `AuthUser` interface of `authClient.ts`: `string | null` fields and the
optional fields both become `Option String` (`none` covering null/absent). -/
structure AuthUser where
  id : String
  role : String
  email : Option String := none
  name : Option String := none
  provider : Option String := none
  providerId : Option String := none
  image : Option String := none
deriving Repr, DecidableEq

/-- `AuthResponse` interface of the token-based `authClient.ts`. -/
structure AuthResponse where
  authenticated : Bool
  user : Option AuthUser := none
  sessionId : Option String := none
  token : Option String := none
  message : Option String := none
  requiresRedirect : Option Bool := none
  loginUrl : Option String := none
deriving Repr, DecidableEq

/-- A browser navigation target.  `loginPage cb` stands for
`{authServiceUrl}/auth/user/login` with `?callbackUrl=encodeURIComponent(cb)`
appended when `cb` is present. -/
inductive PageRef where
  | loginPage (callbackUrl : Option String)
deriving Repr, DecidableEq

/-- Outcome of a `fetch`: an HTTP reply with a parsed body, or a network
error (a JSON parse failure of the body raises in the same `try` block and
is absorbed by the same `catch`, so it is identified with `netError`). -/
inductive FetchResult where
  | reply (status : Nat) (body : AuthResponse)
  | netError
deriving Repr, DecidableEq

/-- State of the `AuthClient` instance plus the browser facilities it
touches. -/
structure ClientState where
  authServiceUrl : String := ""
  /-- `this.user` — the cached user. -/
  user : Option AuthUser := none
  /-- `this.token` — the in-memory bearer token. -/
  token : Option String := none
  /-- `this.checkInterval` — the handle of the periodic timer, if any. -/
  checkInterval : Option Nat := none
  /-- the localStorage slot under the key `auth_token`. -/
  storedToken : Option String := none
  /-- ids of the interval timers currently active in the browser. -/
  timers : List Nat := []
  /-- fresh-id counter for `setInterval`. -/
  nextTimerId : Nat := 0
  /-- whether `typeof window !== 'undefined'`. -/
  hasWindow : Bool := true
  /-- query parameters of the visible URL, in order. -/
  urlParams : List (String × String) := []
  /-- `window.location.href`. -/
  href : String := ""
  /-- navigations performed so far (`window.location.href = ...`). -/
  navigations : List PageRef := []
deriving Repr, DecidableEq

/-- The constructor: stores the service URL and, in a browser, loads the
token from `localStorage.getItem('auth_token')`. -/
def mkAuthClient (authServiceUrl : String) (hasWindow : Bool)
    (storedToken : Option String) (urlParams : List (String × String))
    (href : String) : ClientState :=
  { authServiceUrl := authServiceUrl
    user := none
    token := if hasWindow then storedToken else none
    checkInterval := none
    storedToken := storedToken
    timers := []
    nextTimerId := 0
    hasWindow := hasWindow
    urlParams := urlParams
    href := href
    navigations := [] }

/-- JavaScript `m || d` on an optional string: the empty string is falsy. -/
def jsOr (m : Option String) (d : String) : String :=
  match m with
  | some v => if v = "" then d else v
  | none => d

/-- `response.ok`: status in the range 200–299. -/
def responseOk (status : Nat) : Bool :=
  200 ≤ status && status ≤ 299

/-- `setToken`: caches the token and, in a browser, persists it under
`auth_token`. -/
def setToken (s : ClientState) (t : String) : ClientState :=
  { s with token := some t
           storedToken := if s.hasWindow then some t else s.storedToken }

/-- `getToken`. -/
def getToken (s : ClientState) : Option String :=
  s.token

/-- `clearToken`: drops the cached token and, in a browser, removes the
persisted one. -/
def clearToken (s : ClientState) : ClientState :=
  { s with token := none
           storedToken := if s.hasWindow then none else s.storedToken }

/-- `getCurrentUser`. -/
def getCurrentUser (s : ClientState) : Option AuthUser :=
  s.user

/-- The `try` block of `checkAuthentication`: the `fetch`/`json()` pair can
raise (`.error`); otherwise the three branches of the method body run.
Note `if (data.token)` is a truthiness test, so an empty-string token is not
stored, and `data.message || '...'` defaults on empty strings too. -/
def checkAuthenticationTry (s : ClientState) (fr : FetchResult) :
    Except String (ClientState × AuthResponse) :=
  match fr with
  | .netError => .error "fetch failed"
  | .reply status data =>
    if responseOk status && data.authenticated && data.user.isSome then
      let s1 := { s with user := data.user }
      let s2 := match data.token with
        | some t => if t = "" then s1 else setToken s1 t
        | none => s1
      .ok (s2, { authenticated := true
                 user := data.user
                 sessionId := data.sessionId
                 token := data.token })
    else if status = 401 && data.requiresRedirect = some true then
      let s1 := clearToken { s with user := none }
      .ok (s1, { authenticated := false
                 message := some (jsOr data.message "Authentication required")
                 requiresRedirect := some true
                 loginUrl := data.loginUrl })
    else
      let s1 := { s with user := none }
      let s2 := if status = 401 then clearToken s1 else s1
      .ok (s2, { authenticated := false
                 message := some (jsOr data.message "Not authenticated") })

/-- The response built by the `catch` clause of `checkAuthentication`. -/
def networkErrorResponse : AuthResponse :=
  { authenticated := false
    message := some "Network error during authentication check" }

/-- `checkAuthentication`: the `try` block, with the `catch` clause clearing
the cached user and returning a plain failure response (never re-raising). -/
def checkAuthentication (s : ClientState) (fr : FetchResult) :
    ClientState × AuthResponse :=
  match checkAuthenticationTry s fr with
  | .ok r => r
  | .error _ => ({ s with user := none }, networkErrorResponse)

/-- `URLSearchParams.get`: first value bound to the key, if any. -/
def getParam (ps : List (String × String)) (k : String) : Option String :=
  match ps with
  | [] => none
  | (a, b) :: t => if a = k then some b else getParam t k

/-- `URLSearchParams.delete`: removes every binding of the key. -/
def deleteParam (ps : List (String × String)) (k : String) :
    List (String × String) :=
  ps.filter (fun p => p.1 != k)

/-- The URL-adoption method of `AuthClient` (`initializeFromUrl` in the
source): outside a browser returns false; otherwise, when the URL carries a
truthy `token` parameter, stores it via `setToken`, strips `token` and
`sessionId` from the visible URL (`history.replaceState`) and returns true. -/
def initFromUrl (s : ClientState) : ClientState × Bool :=
  if s.hasWindow = false then (s, false)
  else
    match getParam s.urlParams "token" with
    | some t =>
      if t = "" then (s, false)
      else
        let s1 := setToken s t
        let s2 := { s1 with
          urlParams := deleteParam (deleteParam s1.urlParams "token") "sessionId" }
        (s2, true)
    | none => (s, false)

/-- `redirectToLogin`: resolves the callback URL by JavaScript truthiness
(falsy argument falls back to `window.location.href` in a browser, else the
empty string) and, in a browser, navigates to the login page. -/
def redirectToLogin (s : ClientState) (callbackUrl : Option String) :
    ClientState :=
  let currentUrl : String :=
    match callbackUrl with
    | some c => if c = "" then (if s.hasWindow then s.href else "") else c
    | none => if s.hasWindow then s.href else ""
  let target : PageRef :=
    if currentUrl = "" then .loginPage none else .loginPage (some currentUrl)
  if s.hasWindow then { s with navigations := s.navigations ++ [target] }
  else s

/-- `stopPeriodicCheck`: if a timer handle is held, `clearInterval` it and
null the handle. -/
def stopPeriodicCheck (s : ClientState) : ClientState :=
  match s.checkInterval with
  | some i =>
    { s with timers := s.timers.filter (fun t => t != i), checkInterval := none }
  | none => s

/-- The `try` block of `logout`: the `fetch` can raise, and a non-2xx reply
makes the block throw `Error('Logout request failed')` itself. -/
def logoutTry (fr : FetchResult) : Except String Unit :=
  match fr with
  | .netError => .error "fetch failed"
  | .reply status _ =>
    if responseOk status then .ok () else .error "Logout request failed"

/-- The `finally` clause of `logout`: clears the user and token, stops the
periodic timer and, in a browser, navigates to the login page. -/
def logoutFinally (s : ClientState) : ClientState :=
  let s1 := { s with user := none }
  let s2 := clearToken s1
  let s3 := stopPeriodicCheck s2
  if s3.hasWindow then
    { s3 with navigations := s3.navigations ++ [PageRef.loginPage none] }
  else s3

/-- `logout`: the `catch` clause only logs, and the `finally` clause runs on
both paths, so every fetch outcome leads to the same cleanup. -/
def logout (s : ClientState) (fr : FetchResult) : ClientState :=
  match logoutTry fr with
  | .ok _ => logoutFinally s
  | .error _ => logoutFinally s

/-- `startPeriodicCheck`: clears any prior timer, then installs a fresh one
and keeps its handle.  `intervalMs` only affects the firing schedule, which
is not modelled; the callback body is `periodicTick` below. -/
def startPeriodicCheck (s : ClientState) (intervalMs : Nat) : ClientState :=
  let s1 := match s.checkInterval with
    | some i => { s with timers := s.timers.filter (fun t => t != i) }
    | none => s
  let _ := intervalMs
  { s1 with timers := s1.timers ++ [s1.nextTimerId]
            checkInterval := some s1.nextTimerId
            nextTimerId := s1.nextTimerId + 1 }

/-- The callback `startPeriodicCheck` passes to `setInterval`: re-checks the
session and redirects to login on a negative result. -/
def periodicTick (s : ClientState) (fr : FetchResult) : ClientState :=
  let p := checkAuthentication s fr
  if p.2.authenticated then p.1 else redirectToLogin p.1 none

/-- `hasRole`: `this.user?.role === role`. -/
def hasRole (s : ClientState) (role : String) : Bool :=
  match s.user with
  | some u => u.role == role
  | none => false

/-- `hasAnyRole`: `this.user ? roles.includes(this.user.role) : false`. -/
def hasAnyRole (s : ClientState) (roles : List String) : Bool :=
  match s.user with
  | some u => roles.contains u.role
  | none => false

/-- `isAdmin`. -/
def isAdmin (s : ClientState) : Bool :=
  hasAnyRole s ["admin", "super_admin"]

/-- Observable state of the `useAuth` hook (`user`, `isLoading`, `error`). -/
structure HookState where
  user : Option AuthUser := none
  isLoading : Bool := true
  error : Option String := none
deriving Repr, DecidableEq

/-- The hook's `checkAuth` callback: sets loading, runs
`authClient.checkAuthentication`, then either adopts the user, or clears it
and — when a redirect is required in a browser — calls
`redirectToLogin(window.location.href)` and returns early (the `finally`
still clears loading), or records the failure message. -/
def hookCheckAuth (h : HookState) (s : ClientState) (fr : FetchResult) :
    HookState × ClientState :=
  let h1 := { h with isLoading := true, error := none }
  let p := checkAuthentication s fr
  if p.2.authenticated && p.2.user.isSome then
    ({ h1 with user := p.2.user, isLoading := false }, p.1)
  else
    let h2 := { h1 with user := none }
    if p.2.requiresRedirect = some true && p.1.hasWindow then
      ({ h2 with isLoading := false }, redirectToLogin p.1 (some p.1.href))
    else
      ({ h2 with error := some (jsOr p.2.message "Not authenticated")
                 isLoading := false }, p.1)

/-- Initial `useState` values of the hook. -/
def initialHookState : HookState :=
  { user := none, isLoading := true, error := none }

/-- The hook's mount effect.  In the source the line invoking the client's
URL-adoption method is commented out; the effect body only runs `checkAuth`. -/
def useAuthMount (s : ClientState) (fr : FetchResult) :
    HookState × ClientState :=
  hookCheckAuth initialHookState s fr

/-! ### Helper lemmas -/

/-- The list of timer ids a handle accounts for. -/
def optList : Option Nat → List Nat
  | some i => [i]
  | none => []

theorem logout_eq_finally (s : ClientState) (fr : FetchResult) :
    logout s fr = logoutFinally s := by
  unfold logout
  split <;> rfl

theorem getParam_deleteParam_self (ps : List (String × String)) (k : String) :
    getParam (deleteParam ps k) k = none := by
  induction ps with
  | nil => rfl
  | cons p t ih =>
    by_cases h : p.1 = k
    · simpa [deleteParam, List.filter_cons, h] using ih
    · simpa [deleteParam, List.filter_cons, getParam, h] using ih

theorem getParam_deleteParam_other (ps : List (String × String)) (k k2 : String)
    (h : getParam ps k = none) : getParam (deleteParam ps k2) k = none := by
  induction ps with
  | nil => rfl
  | cons p t ih =>
    by_cases hp : p.1 = k
    · simp [getParam, hp] at h
    · by_cases hq : p.1 = k2
      · simp [getParam, hp] at h
        simpa [deleteParam, List.filter_cons, hq] using ih h
      · simp [getParam, hp] at h
        simpa [deleteParam, List.filter_cons, getParam, hp, hq] using ih h

/-- Branch equation: a network error lands in the `catch` clause. -/
theorem checkAuth_netError (s : ClientState) :
    checkAuthentication s .netError = ({ s with user := none }, networkErrorResponse) :=
  rfl

/-- Branch equation: the success branch of `checkAuthentication`. -/
theorem checkAuth_reply_success (s : ClientState) (status : Nat)
    (data : AuthResponse)
    (h1 : (responseOk status && data.authenticated && data.user.isSome) = true) :
    checkAuthentication s (.reply status data) =
      ((match data.token with
        | some t =>
          if t = "" then { s with user := data.user }
          else setToken { s with user := data.user } t
        | none => { s with user := data.user }),
       { authenticated := true
         user := data.user
         sessionId := data.sessionId
         token := data.token }) := by
  simp only [checkAuthentication, checkAuthenticationTry, h1, if_true]

/-- Branch equation: the 401-with-redirect branch of `checkAuthentication`. -/
theorem checkAuth_reply_redirect (s : ClientState) (status : Nat)
    (data : AuthResponse)
    (h1 : (responseOk status && data.authenticated && data.user.isSome) = false)
    (h2 : status = 401) (h3 : data.requiresRedirect = some true) :
    checkAuthentication s (.reply status data) =
      (clearToken { s with user := none },
       { authenticated := false
         message := some (jsOr data.message "Authentication required")
         requiresRedirect := some true
         loginUrl := data.loginUrl }) := by
  simp only [checkAuthentication, checkAuthenticationTry]
  rw [if_neg (by simp [h1]), if_pos (by simp [h2, h3])]

/-- Branch equation: the residual failure branch of `checkAuthentication`. -/
theorem checkAuth_reply_fail (s : ClientState) (status : Nat)
    (data : AuthResponse)
    (h1 : (responseOk status && data.authenticated && data.user.isSome) = false)
    (h2 : (decide (status = 401) && decide (data.requiresRedirect = some true)) = false) :
    checkAuthentication s (.reply status data) =
      ((if status = 401 then clearToken { s with user := none }
        else { s with user := none }),
       { authenticated := false
         message := some (jsOr data.message "Not authenticated") }) := by
  simp only [checkAuthentication, checkAuthenticationTry]
  rw [if_neg (by simp [h1]), if_neg (by simp [h2])]

theorem checkAuthentication_frame (s : ClientState) (fr : FetchResult) :
    (checkAuthentication s fr).1.urlParams = s.urlParams ∧
    (checkAuthentication s fr).1.navigations = s.navigations ∧
    (checkAuthentication s fr).1.hasWindow = s.hasWindow ∧
    (checkAuthentication s fr).1.href = s.href := by
  cases fr with
  | netError => exact ⟨rfl, rfl, rfl, rfl⟩
  | reply status data =>
    by_cases h1 : (responseOk status && data.authenticated && data.user.isSome) = true
    · rw [checkAuth_reply_success s status data h1]
      cases data.token with
      | none => exact ⟨rfl, rfl, rfl, rfl⟩
      | some t =>
        by_cases ht : t = "" <;> simp [ht, setToken]
    · rw [Bool.not_eq_true] at h1
      by_cases h2 : (decide (status = 401) && decide (data.requiresRedirect = some true)) = true
      · rw [Bool.and_eq_true, decide_eq_true_eq, decide_eq_true_eq] at h2
        rw [checkAuth_reply_redirect s status data h1 h2.1 h2.2]
        simp [clearToken]
      · rw [Bool.not_eq_true] at h2
        rw [checkAuth_reply_fail s status data h1 h2]
        by_cases h401 : status = 401 <;> simp [h401, clearToken]

theorem redirectToLogin_frame (s : ClientState) (cb : Option String) :
    (redirectToLogin s cb).urlParams = s.urlParams ∧
    (redirectToLogin s cb).token = s.token ∧
    (redirectToLogin s cb).storedToken = s.storedToken := by
  unfold redirectToLogin
  by_cases hw : s.hasWindow = true <;> simp [hw]

theorem hookCheckAuth_client (h : HookState) (s : ClientState) (fr : FetchResult) :
    (hookCheckAuth h s fr).2 = (checkAuthentication s fr).1 ∨
    (hookCheckAuth h s fr).2 =
      redirectToLogin (checkAuthentication s fr).1
        (some (checkAuthentication s fr).1.href) := by
  simp only [hookCheckAuth]
  split
  · left; rfl
  · split
    · right; rfl
    · left; rfl

theorem useAuthMount_client (s : ClientState) (fr : FetchResult) :
    (useAuthMount s fr).2.urlParams = s.urlParams ∧
    (useAuthMount s fr).2.token = (checkAuthentication s fr).1.token := by
  have hc := hookCheckAuth_client initialHookState s fr
  have hfr := checkAuthentication_frame s fr
  unfold useAuthMount
  rcases hc with hc | hc
  · rw [hc]
    exact ⟨hfr.1, rfl⟩
  · rw [hc]
    have hrf := redirectToLogin_frame (checkAuthentication s fr).1
      (some (checkAuthentication s fr).1.href)
    exact ⟨hrf.1.trans hfr.1, hrf.2.1⟩

/-- A concrete user for witnesses. -/
def sampleUser : AuthUser :=
  { id := "1", role := "admin" }

/-- A concrete client state (user and token cached, one periodic timer
active, in a browser) for witnesses. -/
def sampleState : ClientState :=
  { authServiceUrl := "https://auth.example"
    user := some sampleUser
    token := some "tok"
    checkInterval := some 0
    storedToken := some "tok"
    timers := [0]
    nextTimerId := 1
    hasWindow := true
    urlParams := []
    href := "https://app.example/home"
    navigations := [] }

theorem stopPeriodicCheck_spec (s : ClientState) :
    (stopPeriodicCheck s).user = s.user ∧
    (stopPeriodicCheck s).token = s.token ∧
    (stopPeriodicCheck s).storedToken = s.storedToken ∧
    (stopPeriodicCheck s).hasWindow = s.hasWindow ∧
    (stopPeriodicCheck s).checkInterval = none ∧
    ∀ i, s.checkInterval = some i → i ∉ (stopPeriodicCheck s).timers := by
  cases hc : s.checkInterval with
  | none => simp [stopPeriodicCheck, hc]
  | some i => simp [stopPeriodicCheck, hc, List.mem_filter]

theorem logoutFinally_spec (s : ClientState) :
    (logoutFinally s).user = none ∧
    (logoutFinally s).token = none ∧
    (s.hasWindow = true → (logoutFinally s).storedToken = none) ∧
    (logoutFinally s).checkInterval = none ∧
    ∀ i, s.checkInterval = some i → i ∉ (logoutFinally s).timers := by
  cases hc : s.checkInterval with
  | none =>
    by_cases hw : s.hasWindow = true <;>
      simp [logoutFinally, clearToken, stopPeriodicCheck, hc, hw]
  | some i =>
    by_cases hw : s.hasWindow = true <;>
      simp [logoutFinally, clearToken, stopPeriodicCheck, hc, hw, List.mem_filter]

/-! ### Claim theorems -/

/-- C1: every `checkAuthentication` call that reports failure (HTTP non-ok,
`authenticated=false`, missing user payload, or a network exception) leaves
the cached user cleared: immediately afterwards `getCurrentUser()` is null.
Stated for an arbitrary pre-state, this covers every call of every sequence. -/
theorem checkAuthentication_failure_clears_user (s : ClientState)
    (fr : FetchResult)
    (h : (checkAuthentication s fr).2.authenticated = false) :
    getCurrentUser (checkAuthentication s fr).1 = none := by
  cases fr with
  | netError => rfl
  | reply status data =>
    by_cases h1 : (responseOk status && data.authenticated && data.user.isSome) = true
    · rw [checkAuth_reply_success s status data h1] at h
      simp at h
    · rw [Bool.not_eq_true] at h1
      by_cases h2 : (decide (status = 401) && decide (data.requiresRedirect = some true)) = true
      · rw [Bool.and_eq_true, decide_eq_true_eq, decide_eq_true_eq] at h2
        rw [checkAuth_reply_redirect s status data h1 h2.1 h2.2]
        rfl
      · rw [Bool.not_eq_true] at h2
        rw [checkAuth_reply_fail s status data h1 h2]
        by_cases h401 : status = 401 <;> simp [h401, getCurrentUser, clearToken]

theorem checkAuthentication_failure_clears_user_witness :
    (checkAuthentication sampleState FetchResult.netError).2.authenticated = false ∧
    getCurrentUser (checkAuthentication sampleState FetchResult.netError).1 = none :=
  ⟨rfl, checkAuthentication_failure_clears_user sampleState FetchResult.netError rfl⟩

/-- C2: whatever the outcome of the remote POST — 2xx, non-2xx, or a network
exception — after `logout()` the cached user is null, the bearer token is
gone from memory and (in a browser) from local storage, and the periodic
timer is stopped. -/
theorem logout_cleans_state (s : ClientState) (fr : FetchResult)
    (hw : s.hasWindow = true) :
    (logout s fr).user = none ∧
    getToken (logout s fr) = none ∧
    (logout s fr).storedToken = none ∧
    (logout s fr).checkInterval = none ∧
    ∀ i, s.checkInterval = some i → i ∉ (logout s fr).timers := by
  rw [logout_eq_finally]
  have h := logoutFinally_spec s
  exact ⟨h.1, h.2.1, h.2.2.1 hw, h.2.2.2.1, h.2.2.2.2⟩

theorem logout_cleans_state_witness :
    sampleState.hasWindow = true ∧
    ((logout sampleState FetchResult.netError).user = none ∧
     getToken (logout sampleState FetchResult.netError) = none ∧
     (logout sampleState FetchResult.netError).storedToken = none ∧
     (logout sampleState FetchResult.netError).checkInterval = none ∧
     ∀ i, sampleState.checkInterval = some i →
       i ∉ (logout sampleState FetchResult.netError).timers) :=
  ⟨rfl, logout_cleans_state sampleState FetchResult.netError rfl⟩

/-- C5: from any state whose active timers are exactly the ones the handle
accounts for, two consecutive `startPeriodicCheck` calls leave exactly one
active timer, and the timer installed by the first call has been cancelled. -/
theorem startPeriodicCheck_twice_single_timer (s : ClientState) (i1 i2 : Nat)
    (hinv : s.timers = optList s.checkInterval) :
    ((startPeriodicCheck (startPeriodicCheck s i1) i2).timers).length = 1 ∧
    ∀ j, (startPeriodicCheck s i1).checkInterval = some j →
      j ∉ (startPeriodicCheck (startPeriodicCheck s i1) i2).timers := by
  cases hc : s.checkInterval with
  | none =>
    rw [hc] at hinv
    constructor
    · simp [startPeriodicCheck, hc, hinv, optList, List.filter_cons]
    · intro j hj
      simp [startPeriodicCheck, hc, hinv, optList] at hj
      simp [startPeriodicCheck, hc, hinv, optList, List.filter_cons, hj]
  | some i =>
    rw [hc] at hinv
    constructor
    · simp [startPeriodicCheck, hc, hinv, optList, List.filter_cons]
    · intro j hj
      simp [startPeriodicCheck, hc, hinv, optList] at hj
      simp [startPeriodicCheck, hc, hinv, optList, List.filter_cons, hj]

theorem startPeriodicCheck_twice_single_timer_witness :
    sampleState.timers = optList sampleState.checkInterval ∧
    (((startPeriodicCheck (startPeriodicCheck sampleState 300000) 60000).timers).length = 1 ∧
     ∀ j, (startPeriodicCheck sampleState 300000).checkInterval = some j →
       j ∉ (startPeriodicCheck (startPeriodicCheck sampleState 300000) 60000).timers) :=
  ⟨rfl, startPeriodicCheck_twice_single_timer sampleState 300000 60000 rfl⟩

/-- C6: `isAdmin()` is true iff a user is cached with role exactly `admin`
or exactly `super_admin`; false for any other role string and when no user
is cached; and it equals `hasAnyRole(["admin","super_admin"])`. -/
theorem isAdmin_role_spec (s : ClientState) :
    (isAdmin s = true ↔
      ∃ u, s.user = some u ∧ (u.role = "admin" ∨ u.role = "super_admin")) ∧
    isAdmin s = hasAnyRole s ["admin", "super_admin"] := by
  refine ⟨?_, rfl⟩
  cases hu : s.user with
  | none => simp [isAdmin, hasAnyRole, hu]
  | some u => simp [isAdmin, hasAnyRole, hu, List.contains_cons]

/-- C7: neither `checkAuthentication` nor `logout` propagates an exception:
the `try` blocks do raise on a network error (and, for `logout`, on a
non-2xx reply), yet `checkAuthentication` resolves to the `catch` clause's
plain failure response (failures always carry a message) and `logout`
resolves to the `finally` cleanup on every outcome. -/
theorem authClient_api_never_throws (s : ClientState) (fr : FetchResult)
    (body : AuthResponse) :
    ((checkAuthentication s fr).2.authenticated = true ∨
      ((checkAuthentication s fr).2.authenticated = false ∧
       (checkAuthentication s fr).2.message.isSome = true)) ∧
    checkAuthentication s FetchResult.netError =
      ({ s with user := none }, networkErrorResponse) ∧
    checkAuthenticationTry s FetchResult.netError = .error "fetch failed" ∧
    logout s fr = logoutFinally s ∧
    logoutTry FetchResult.netError = .error "fetch failed" ∧
    logoutTry (.reply 500 body) = .error "Logout request failed" := by
  refine ⟨?_, rfl, rfl, logout_eq_finally s fr, rfl, rfl⟩
  cases fr with
  | netError => exact Or.inr ⟨rfl, rfl⟩
  | reply status data =>
    by_cases h1 : (responseOk status && data.authenticated && data.user.isSome) = true
    · rw [checkAuth_reply_success s status data h1]
      exact Or.inl rfl
    · rw [Bool.not_eq_true] at h1
      by_cases h2 : (decide (status = 401) && decide (data.requiresRedirect = some true)) = true
      · rw [Bool.and_eq_true, decide_eq_true_eq, decide_eq_true_eq] at h2
        rw [checkAuth_reply_redirect s status data h1 h2.1 h2.2]
        exact Or.inr ⟨rfl, rfl⟩
      · rw [Bool.not_eq_true] at h2
        rw [checkAuth_reply_fail s status data h1 h2]
        exact Or.inr ⟨rfl, rfl⟩

/-- C8: on an HTTP 401 reply whose body requires a redirect,
`checkAuthentication` clears the cached user and the stored token, reports
`authenticated=false` with `requiresRedirect=true` and the body's
`loginUrl`, and performs no browser navigation itself. -/
theorem checkAuthentication_401_redirect_contract (s : ClientState)
    (data : AuthResponse) (hr : data.requiresRedirect = some true) :
    (checkAuthentication s (.reply 401 data)).1.user = none ∧
    getToken (checkAuthentication s (.reply 401 data)).1 = none ∧
    (s.hasWindow = true →
      (checkAuthentication s (.reply 401 data)).1.storedToken = none) ∧
    (checkAuthentication s (.reply 401 data)).2.authenticated = false ∧
    (checkAuthentication s (.reply 401 data)).2.requiresRedirect = some true ∧
    (checkAuthentication s (.reply 401 data)).2.loginUrl = data.loginUrl ∧
    (checkAuthentication s (.reply 401 data)).1.navigations = s.navigations := by
  have h1 : (responseOk 401 && data.authenticated && data.user.isSome) = false := by
    simp [responseOk]
  rw [checkAuth_reply_redirect s 401 data h1 rfl hr]
  refine ⟨rfl, rfl, ?_, rfl, rfl, rfl, rfl⟩
  intro hw
  simp [clearToken, hw]

/-- The 401 body of the spec's redirect scenario. -/
def redirectBody : AuthResponse :=
  { authenticated := false
    requiresRedirect := some true
    loginUrl := some "https://x/login" }

theorem checkAuthentication_401_redirect_contract_witness :
    redirectBody.requiresRedirect = some true ∧
    ((checkAuthentication sampleState (.reply 401 redirectBody)).1.user = none ∧
     getToken (checkAuthentication sampleState (.reply 401 redirectBody)).1 = none ∧
     (sampleState.hasWindow = true →
       (checkAuthentication sampleState (.reply 401 redirectBody)).1.storedToken = none) ∧
     (checkAuthentication sampleState (.reply 401 redirectBody)).2.authenticated = false ∧
     (checkAuthentication sampleState (.reply 401 redirectBody)).2.requiresRedirect = some true ∧
     (checkAuthentication sampleState (.reply 401 redirectBody)).2.loginUrl = redirectBody.loginUrl ∧
     (checkAuthentication sampleState (.reply 401 redirectBody)).1.navigations = sampleState.navigations) :=
  ⟨rfl, checkAuthentication_401_redirect_contract sampleState redirectBody rfl⟩

/-- C9: `hasRole(r)` agrees with `hasAnyRole([r])` in every cached-user
state, and both are false when no user is cached. -/
theorem hasRole_eq_hasAnyRole_singleton (s : ClientState) (r : String) :
    hasRole s r = hasAnyRole s [r] ∧
    hasRole { s with user := none } r = false ∧
    hasAnyRole { s with user := none } [r] = false := by
  refine ⟨?_, rfl, rfl⟩
  cases hu : s.user with
  | none => simp [hasRole, hasAnyRole, hu]
  | some u =>
    by_cases hr2 : u.role = r <;>
      simp [hasRole, hasAnyRole, hu, List.contains_cons, hr2]

/-- C10: a successful `checkAuthentication` whose body carries no token
leaves the stored bearer token unchanged, in memory and in local storage. -/
theorem checkAuthentication_no_token_response_keeps_token (s : ClientState)
    (status : Nat) (data : AuthResponse)
    (h1 : (responseOk status && data.authenticated && data.user.isSome) = true)
    (ht : data.token = none) :
    getToken (checkAuthentication s (.reply status data)).1 = getToken s ∧
    (checkAuthentication s (.reply status data)).1.storedToken = s.storedToken := by
  rw [checkAuth_reply_success s status data h1, ht]
  exact ⟨rfl, rfl⟩

/-- A successful verify body carrying a user but no token. -/
def tokenlessSuccessBody : AuthResponse :=
  { authenticated := true, user := some sampleUser }

theorem checkAuthentication_no_token_response_keeps_token_witness :
    (responseOk 200 && tokenlessSuccessBody.authenticated &&
      tokenlessSuccessBody.user.isSome) = true ∧
    tokenlessSuccessBody.token = none ∧
    (getToken (checkAuthentication sampleState (.reply 200 tokenlessSuccessBody)).1 =
       getToken sampleState ∧
     (checkAuthentication sampleState (.reply 200 tokenlessSuccessBody)).1.storedToken =
       sampleState.storedToken) :=
  ⟨rfl, rfl,
   checkAuthentication_no_token_response_keeps_token sampleState 200
     tokenlessSuccessBody rfl rfl⟩

/-- The browser state of the spec's URL-adoption scenario: the page was
opened at `?token=abc123&sessionId=xyz`, nothing cached yet. -/
def urlTokenState : ClientState :=
  { authServiceUrl := "https://auth.example"
    user := none
    token := none
    checkInterval := none
    storedToken := none
    timers := []
    nextTimerId := 0
    hasWindow := true
    urlParams := [("token", "abc123"), ("sessionId", "xyz")]
    href := "https://app.example/cb?token=abc123&sessionId=xyz"
    navigations := [] }

/-- A verify reply that carries no token (the session is not established). -/
def noSessionReply : FetchResult :=
  .reply 200 { authenticated := false, message := some "no session" }

/-- C3 counterexample: mounting the hook at `?token=abc123&sessionId=xyz`
does NOT adopt the token and does NOT strip the parameters — the mount
effect's call to the URL-adoption method is commented out in the source, so
after the mount the client's token is still null and both parameters are
still in the visible URL. -/
theorem useAuthMount_url_token_not_adopted :
    getToken (useAuthMount urlTokenState noSessionReply).2 = none ∧
    getParam (useAuthMount urlTokenState noSessionReply).2.urlParams "token" =
      some "abc123" ∧
    getParam (useAuthMount urlTokenState noSessionReply).2.urlParams "sessionId" =
      some "xyz" ∧
    ¬ getToken (useAuthMount urlTokenState noSessionReply).2 = some "abc123" := by
  decide

/-- C3 amended: the URL-adoption behaviour lives in the client's
`initializeFromUrl` method — called directly on a URL with a (truthy) token
parameter it stores that token (memory and local storage) and strips both
the `token` and `sessionId` parameters and reports true — but the hook's
mount effect does not invoke it (the call is commented out): the mount
leaves the URL parameters untouched and only performs the one unconditional
authentication check, whose state is the client state after the mount. -/
theorem initFromUrl_adopts_but_mount_skips (s : ClientState) (fr : FetchResult)
    (t : String) (hw : s.hasWindow = true)
    (ht : getParam s.urlParams "token" = some t) (hne : t ≠ "") :
    getToken (initFromUrl s).1 = some t ∧
    (initFromUrl s).1.storedToken = some t ∧
    getParam (initFromUrl s).1.urlParams "token" = none ∧
    getParam (initFromUrl s).1.urlParams "sessionId" = none ∧
    (initFromUrl s).2 = true ∧
    (useAuthMount s fr).2.urlParams = s.urlParams ∧
    getToken (useAuthMount s fr).2 = getToken (checkAuthentication s fr).1 := by
  have hi : initFromUrl s =
      ({ s with token := some t
                storedToken := some t
                urlParams := deleteParam (deleteParam s.urlParams "token") "sessionId" },
       true) := by
    simp only [initFromUrl, hw]
    rw [ht]
    simp [hne, setToken, hw]
  rw [hi]
  refine ⟨rfl, rfl, ?_, ?_, rfl, (useAuthMount_client s fr).1,
    (useAuthMount_client s fr).2⟩
  · exact getParam_deleteParam_other _ "token" "sessionId"
      (getParam_deleteParam_self s.urlParams "token")
  · exact getParam_deleteParam_self _ "sessionId"

theorem initFromUrl_adopts_but_mount_skips_witness :
    urlTokenState.hasWindow = true ∧
    getParam urlTokenState.urlParams "token" = some "abc123" ∧
    "abc123" ≠ "" ∧
    (getToken (initFromUrl urlTokenState).1 = some "abc123" ∧
     (initFromUrl urlTokenState).1.storedToken = some "abc123" ∧
     getParam (initFromUrl urlTokenState).1.urlParams "token" = none ∧
     getParam (initFromUrl urlTokenState).1.urlParams "sessionId" = none ∧
     (initFromUrl urlTokenState).2 = true ∧
     (useAuthMount urlTokenState noSessionReply).2.urlParams = urlTokenState.urlParams ∧
     getToken (useAuthMount urlTokenState noSessionReply).2 =
       getToken (checkAuthentication urlTokenState noSessionReply).1) :=
  ⟨rfl, rfl, by decide,
   initFromUrl_adopts_but_mount_skips urlTokenState noSessionReply "abc123"
     rfl rfl (by decide)⟩

/-- A fresh client in a browser with empty local storage. -/
def freshClient : ClientState :=
  mkAuthClient "https://auth.example" true none [] "https://app.example/home"

/-- A verify reply establishing a session and carrying a token. -/
def tokenSuccessBody : AuthResponse :=
  { authenticated := true
    user := some sampleUser
    sessionId := some "sess"
    token := some "tok" }

/-- The state after one successful verify that delivered a token: user and
token both cached.  (Reachable from the fresh client in one call.) -/
def verifiedClient : ClientState :=
  (checkAuthentication freshClient (.reply 200 tokenSuccessBody)).1

/-- C4 counterexample: from the verified state (user and token both set,
itself reached by one successful `checkAuthentication`), a network-error
check clears the user but KEEPS the bearer token in memory and local
storage — a reachable state with a token stored while the user is cleared,
contradicting "cleared together ... on any verification failure or network
error". -/
theorem token_kept_while_user_cleared_counterexample :
    verifiedClient = (checkAuthentication freshClient (.reply 200 tokenSuccessBody)).1 ∧
    verifiedClient.user = some sampleUser ∧
    getToken verifiedClient = some "tok" ∧
    (checkAuthentication verifiedClient FetchResult.netError).1.user = none ∧
    getToken (checkAuthentication verifiedClient FetchResult.netError).1 = some "tok" ∧
    (checkAuthentication verifiedClient FetchResult.netError).1.storedToken = some "tok" := by
  refine ⟨rfl, ?_, ?_, ?_, ?_, ?_⟩ <;> decide

/-- C4 amended: user and token are set together only by a successful check
whose body carries a (non-empty) token; a successful check without one sets
the user and leaves the token as it was.  They are cleared together on any
401 response and on logout; on every other failure — non-401 HTTP failure,
`authenticated=false` body, missing user payload, or network error — only
the user is cleared and the token is kept, so a state holding a token with
no cached user is reachable. -/
theorem token_user_lifecycle (s : ClientState) (status : Nat)
    (data : AuthResponse) (fr : FetchResult) :
    ((responseOk status && data.authenticated && data.user.isSome) = true →
      (checkAuthentication s (.reply status data)).1.user = data.user ∧
      getToken (checkAuthentication s (.reply status data)).1 =
        (match data.token with
         | some t => if t = "" then getToken s else some t
         | none => getToken s)) ∧
    (status = 401 →
      (checkAuthentication s (.reply status data)).1.user = none ∧
      getToken (checkAuthentication s (.reply status data)).1 = none) ∧
    ((responseOk status && data.authenticated && data.user.isSome) = false →
      status ≠ 401 →
      (checkAuthentication s (.reply status data)).1.user = none ∧
      getToken (checkAuthentication s (.reply status data)).1 = getToken s) ∧
    ((checkAuthentication s FetchResult.netError).1.user = none ∧
     getToken (checkAuthentication s FetchResult.netError).1 = getToken s) ∧
    ((logout s fr).user = none ∧ getToken (logout s fr) = none) := by
  refine ⟨?_, ?_, ?_, ⟨rfl, rfl⟩, ?_⟩
  · intro h1
    rw [checkAuth_reply_success s status data h1]
    cases data.token with
    | none => exact ⟨rfl, rfl⟩
    | some t =>
      by_cases hte : t = "" <;> simp [hte, setToken, getToken]
  · intro h401
    have h1 : (responseOk status && data.authenticated && data.user.isSome) = false := by
      subst h401
      simp [responseOk]
    by_cases hrd : data.requiresRedirect = some true
    · rw [checkAuth_reply_redirect s status data h1 h401 hrd]
      exact ⟨rfl, rfl⟩
    · rw [checkAuth_reply_fail s status data h1 (by simp [hrd])]
      subst h401
      simp [clearToken, getToken]
  · intro h1 hne401
    rw [checkAuth_reply_fail s status data h1 (by simp [hne401])]
    simp [hne401, getToken]
  · rw [logout_eq_finally]
    exact ⟨(logoutFinally_spec s).1, (logoutFinally_spec s).2.1⟩

theorem token_user_lifecycle_witness :
    (checkAuthentication verifiedClient FetchResult.netError).1.user = none ∧
    getToken (checkAuthentication verifiedClient FetchResult.netError).1 =
      getToken verifiedClient :=
  (token_user_lifecycle verifiedClient 200 tokenSuccessBody
    FetchResult.netError).2.2.2.1
